import Mathlib

/-!
Verification of the parameter-catalogue and policy constants of
`src/lib/constants.py` (ganeti).

The catalogue data (parameter-type tables, default-value tables, disk
template capability sets, the default instance policy) is embedded from
the source file.  The operational components described by the design
document (TypeValidator, DefaultResolver, PolicyEvaluator) have no code
under `src/`; those definitions are modelled from the spec and are marked
as such in their doc comments.
-/

namespace Ganeti

/-- Value types of the parameter tables.  The source file re-exports the
`VTYPE_STRING`, `VTYPE_MAYBE_STRING`, `VTYPE_BOOL`, `VTYPE_SIZE` and
`VTYPE_INT` identifiers from `ganeti._constants` (a module absent from
`src/`), so the five types are represented as an enumeration. -/
inductive VType where
  | tString
  | tMaybeString
  | tBool
  | tSize
  | tInt
deriving DecidableEq, Repr

/-- Parsed parameter values.  `vNothing` is the explicit absent sentinel
`VALUE_HS_NOTHING` of `src/lib/constants.py` line 330 (a dict with the
single key `Nothing`), accepted only by the MaybeString type. -/
inductive Value where
  | vStr (s : String)
  | vBool (b : Bool)
  | vInt (n : Int)
  | vNothing
deriving DecidableEq, Repr

/-- Modelled from the spec: TypeValidator (spec 4.1) applied to
already-parsed values.  String accepts any text; MaybeString accepts text
or the absent sentinel; Bool accepts booleans; Int accepts integers; Size
accepts non-negative integer magnitudes ("negative magnitudes fail"). -/
def typeCheck : Value → VType → Bool
  | .vStr _, .tString => true
  | .vStr _, .tMaybeString => true
  | .vNothing, .tMaybeString => true
  | .vBool _, .tBool => true
  | .vInt _, .tInt => true
  | .vInt n, .tSize => decide (0 ≤ n)
  | _, _ => false

/-- Disk template identifiers.  The source re-exports `DT_BLOCK`,
`DT_DISKLESS`, `DT_DRBD8`, `DT_EXT`, `DT_FILE`, `DT_PLAIN`, `DT_RBD` and
`DT_SHARED_FILE` from `ganeti._constants` (absent from `src/`); the spec
names exactly these eight disk templates, represented here as an
enumeration. -/
inductive DiskTemplate where
  | dtBlock
  | dtDiskless
  | dtDrbd8
  | dtExt
  | dtFile
  | dtPlain
  | dtRbd
  | dtSharedFile
deriving DecidableEq, Repr, Fintype

/-- Storage type identifiers, re-exported by the source from
`ganeti._constants` (`ST_BLOCK`, `ST_DISKLESS`, `ST_EXT`, `ST_FILE`,
`ST_LVM_PV`, `ST_LVM_VG`, `ST_RADOS`). -/
inductive StorageType where
  | stBlock
  | stDiskless
  | stExt
  | stFile
  | stLvmPv
  | stLvmVg
  | stRados
deriving DecidableEq, Repr

/-- Mapping of disk templates to storage types,
`src/lib/constants.py` lines 437-446. -/
def MAP_DISK_TEMPLATE_STORAGE_TYPE : List (DiskTemplate × StorageType) :=
  [ (.dtBlock, .stBlock),
    (.dtDiskless, .stDiskless),
    (.dtDrbd8, .stLvmVg),
    (.dtExt, .stExt),
    (.dtFile, .stFile),
    (.dtPlain, .stLvmVg),
    (.dtRbd, .stRados),
    (.dtSharedFile, .stFile) ]

/-- The set of network-mirrored disk templates, line 449. -/
def DTS_INT_MIRROR : List DiskTemplate := [.dtDrbd8]

/-- The set of externally-mirrored disk templates, lines 452-458. -/
def DTS_EXT_MIRROR : List DiskTemplate :=
  [.dtDiskless, .dtSharedFile, .dtBlock, .dtRbd, .dtExt]

/-- The set of disk templates that allow adoption, lines 481-484. -/
def DTS_MAY_ADOPT : List DiskTemplate := [.dtPlain, .dtBlock]

/-- The set of disk templates that must use adoption, line 487. -/
def DTS_MUST_ADOPT : List DiskTemplate := [.dtBlock]

/-- List of all disk templates.  The source takes `DISK_TEMPLATES` from
`ganeti._constants` (absent from `src/`); modelled from the spec, which
enumerates exactly the eight templates. -/
def DISK_TEMPLATES : List DiskTemplate :=
  [.dtBlock, .dtDiskless, .dtDrbd8, .dtExt, .dtFile, .dtPlain, .dtRbd, .dtSharedFile]

/-- Maximum number of NICs, `src/lib/constants.py` line 1765. -/
def MAX_NICS : Nat := 8

/-- Maximum number of disks, line 1766. -/
def MAX_DISKS : Nat := 16

/-- An instance specification: the six numeric sizing dimensions keyed in
the source by `ISPEC_MEM_SIZE`, `ISPEC_CPU_COUNT`, `ISPEC_DISK_COUNT`,
`ISPEC_DISK_SIZE`, `ISPEC_NIC_COUNT` and `ISPEC_SPINDLE_USE`
(lines 1067-1072); all dimensions are non-negative integers. -/
structure InstanceSpec where
  memSize : Nat
  cpuCount : Nat
  diskCount : Nat
  diskSize : Nat
  nicCount : Nat
  spindleUse : Nat
deriving DecidableEq, Repr

/-- A min/max sizing bracket, keyed in the source by `ISPECS_MIN` and
`ISPECS_MAX`. -/
structure MinMaxISpecs where
  min : InstanceSpec
  max : InstanceSpec
deriving DecidableEq, Repr

/-- Default sizing bracket `ISPECS_MINMAX_DEFAULTS`, lines 2043-2060. -/
def ISPECS_MINMAX_DEFAULTS : MinMaxISpecs :=
  { min := { memSize := 128
             cpuCount := 1
             diskCount := 1
             diskSize := 1024
             nicCount := 1
             spindleUse := 1 }
    max := { memSize := 32768
             cpuCount := 8
             diskCount := MAX_DISKS
             diskSize := 1024 * 1024
             nicCount := MAX_NICS
             spindleUse := 12 } }

/-- An instance policy: size brackets (`ISPECS_MINMAX`), standard spec
(`ISPECS_STD`), allowed disk templates (`IPOLICY_DTS`) and the vcpu and
spindle ratio limits (`IPOLICY_VCPU_RATIO`, `IPOLICY_SPINDLE_RATIO`). -/
structure InstancePolicy where
  minmax : List MinMaxISpecs
  std : InstanceSpec
  dts : List DiskTemplate
  vcpuRatioLimit : Rat
  spindleRatioLimit : Rat
deriving DecidableEq, Repr

/-- Default instance policy `IPOLICY_DEFAULTS`, lines 2061-2074. -/
def IPOLICY_DEFAULTS : InstancePolicy :=
  { minmax := [ISPECS_MINMAX_DEFAULTS]
    std := { memSize := 128
             cpuCount := 1
             diskCount := 1
             diskSize := 1024
             nicCount := 1
             spindleUse := 1 }
    dts := DISK_TEMPLATES
    vcpuRatioLimit := 4
    spindleRatioLimit := 32 }

/-- Pointwise comparison of instance specs: true iff every dimension of
the first spec is at most the corresponding dimension of the second. -/
def specLe (a b : InstanceSpec) : Bool :=
  decide (a.memSize ≤ b.memSize) &&
  decide (a.cpuCount ≤ b.cpuCount) &&
  decide (a.diskCount ≤ b.diskCount) &&
  decide (a.diskSize ≤ b.diskSize) &&
  decide (a.nicCount ≤ b.nicCount) &&
  decide (a.spindleUse ≤ b.spindleUse)

/-- Modelled from the spec: bracket matching (spec 4.4 step 2).  A bracket
matches a spec iff for every dimension `min[d] ≤ spec[d] ≤ max[d]`. -/
def bracketMatches (s : InstanceSpec) (b : MinMaxISpecs) : Bool :=
  specLe b.min s && specLe s b.max

/-- Admission decision of the policy evaluator (spec 4.4): accepted with
the index of the first matching bracket, rejected because the disk
template is not allowed, or rejected because no bracket matches. -/
inductive Admission where
  | accepted (bracket : Nat)
  | rejectedDiskTemplate (t : DiskTemplate)
  | rejectedNoBracket
deriving DecidableEq, Repr

/-- Modelled from the spec: index of the first bracket matching a spec
(spec 4.4 step 2, "first match found"). -/
def firstMatch (s : InstanceSpec) : List MinMaxISpecs → Option Nat
  | [] => none
  | b :: rest =>
    if bracketMatches s b then some 0 else (firstMatch s rest).map (· + 1)

/-- Modelled from the spec: PolicyEvaluator admission (spec 4.4 steps
1-3).  A disallowed disk template rejects immediately; otherwise the
brackets are tried in order and any match accepts. -/
def evaluate (s : InstanceSpec) (t : DiskTemplate) (p : InstancePolicy) : Admission :=
  if t ∈ p.dts then
    match firstMatch s p.minmax with
    | some i => .accepted i
    | none => .rejectedNoBracket
  else .rejectedDiskTemplate t

/-- Node-group aggregates supplied by the caller for the ratio checks of
spec 4.4 step 4. -/
structure GroupAggregates where
  nodeCpuTotal : Nat
  instanceCpuSum : Nat
  nodeSpindleTotal : Nat
  instanceSpindleSum : Nat
deriving DecidableEq, Repr

/-- Modelled from the spec: computed vcpu ratio of a node group, the sum
of hosted instance cpu counts over the total node cpu capacity. -/
def vcpuRatioOf (g : GroupAggregates) : Rat :=
  (g.instanceCpuSum : Rat) / (g.nodeCpuTotal : Rat)

/-- Modelled from the spec: computed spindle ratio of a node group. -/
def spindleRatioOf (g : GroupAggregates) : Rat :=
  (g.instanceSpindleSum : Rat) / (g.nodeSpindleTotal : Rat)

/-- Advisory ratio diagnostic (spec 7): dimension name, actual ratio and
the policy limit it exceeds. -/
inductive RatioDiag where
  | ratioExceeded (dim : String) (actual : Rat) (limit : Rat)
deriving DecidableEq, Repr

/-- Modelled from the spec: ratio checks (spec 4.4 step 4).  Each computed
ratio exceeding its policy limit yields a diagnostic. -/
def ratioChecks (g : GroupAggregates) (p : InstancePolicy) : List RatioDiag :=
  (if p.vcpuRatioLimit < vcpuRatioOf g then
    [.ratioExceeded "vcpu" (vcpuRatioOf g) p.vcpuRatioLimit]
  else []) ++
  (if p.spindleRatioLimit < spindleRatioOf g then
    [.ratioExceeded "spindle" (spindleRatioOf g) p.spindleRatioLimit]
  else [])

/-- Modelled from the spec: full evaluation returning the admission
decision alongside (not instead of) the advisory ratio diagnostics. -/
def evaluateWithRatios (s : InstanceSpec) (t : DiskTemplate) (p : InstancePolicy)
    (g : GroupAggregates) : Admission × List RatioDiag :=
  (evaluate s t p, ratioChecks g p)

/-- The spec of Scenario A: memory 2048, cpu 2, disks 1, disk size 10240,
nics 1, spindle use 1. -/
def specScenarioA : InstanceSpec :=
  { memSize := 2048
    cpuCount := 2
    diskCount := 1
    diskSize := 10240
    nicCount := 1
    spindleUse := 1 }

/-- The node group of Scenario C: total node cpu capacity 8, hosted
instance vcpu sum 40, spindle aggregates within limits. -/
def groupScenarioC : GroupAggregates :=
  { nodeCpuTotal := 8
    instanceCpuSum := 40
    nodeSpindleTotal := 8
    instanceSpindleSum := 8 }

set_option maxHeartbeats 1600000 in
/-- Hypervisor parameter type table `HVS_PARAMETER_TYPES`,
`src/lib/constants.py` lines 875-947, in source order.  Keys are written
out as the string values of the `HV_*` constants of lines 801-872. -/
def HVS_PARAMETER_TYPES : List (String × VType) :=
  [ ("kvm_path", .tString),
    ("boot_order", .tString),
    ("floppy_image_path", .tString),
    ("cdrom_image_path", .tString),
    ("cdrom2_image_path", .tString),
    ("nic_type", .tString),
    ("disk_type", .tString),
    ("cdrom_disk_type", .tString),
    ("vnc_password_file", .tString),
    ("vnc_bind_address", .tString),
    ("vnc_tls", .tBool),
    ("vnc_x509_path", .tString),
    ("vnc_x509_verify", .tBool),
    ("spice_bind", .tString),
    ("spice_ip_version", .tInt),
    ("spice_password_file", .tString),
    ("spice_image_compression", .tString),
    ("spice_jpeg_wan_compression", .tString),
    ("spice_zlib_glz_wan_compression", .tString),
    ("spice_streaming_video", .tString),
    ("spice_playback_compression", .tBool),
    ("spice_use_tls", .tBool),
    ("spice_tls_ciphers", .tString),
    ("spice_use_vdagent", .tBool),
    ("acpi", .tBool),
    ("pae", .tBool),
    ("use_bootloader", .tBool),
    ("bootloader_path", .tString),
    ("bootloader_args", .tString),
    ("kernel_path", .tString),
    ("kernel_args", .tString),
    ("initrd_path", .tString),
    ("root_path", .tMaybeString),
    ("serial_console", .tBool),
    ("serial_speed", .tInt),
    ("usb_mouse", .tString),
    ("keymap", .tString),
    ("device_model", .tString),
    ("init_script", .tString),
    ("migration_port", .tInt),
    ("migration_bandwidth", .tInt),
    ("migration_downtime", .tInt),
    ("migration_mode", .tString),
    ("use_localtime", .tBool),
    ("disk_cache", .tString),
    ("security_model", .tString),
    ("security_domain", .tString),
    ("kvm_flag", .tString),
    ("vhost_net", .tBool),
    ("use_chroot", .tBool),
    ("cpu_mask", .tString),
    ("mem_path", .tString),
    ("pci_pass", .tString),
    ("blockdev_prefix", .tString),
    ("reboot_behavior", .tString),
    ("cpu_type", .tString),
    ("cpu_cap", .tInt),
    ("cpu_weight", .tInt),
    ("cpu_cores", .tInt),
    ("cpu_threads", .tInt),
    ("cpu_sockets", .tInt),
    ("soundhw", .tString),
    ("usb_devices", .tString),
    ("vga", .tString),
    ("kvm_extra", .tString),
    ("machine_version", .tString),
    ("vif_type", .tString),
    ("vif_script", .tString),
    ("xen_cmd", .tString),
    ("vnet_hdr", .tBool),
    ("viridian", .tBool) ]

/-- Backend parameter type table `BES_PARAMETER_TYPES`, lines 1043-1050. -/
def BES_PARAMETER_TYPES : List (String × VType) :=
  [ ("maxmem", .tSize),
    ("minmem", .tSize),
    ("vcpus", .tInt),
    ("auto_balance", .tBool),
    ("always_failover", .tBool),
    ("spindle_use", .tInt) ]

/-- Node parameter type table `NDS_PARAMETER_TYPES`, lines 1114-1121. -/
def NDS_PARAMETER_TYPES : List (String × VType) :=
  [ ("oob_program", .tString),
    ("spindle_count", .tInt),
    ("exclusive_storage", .tBool),
    ("ovs", .tBool),
    ("ovs_name", .tMaybeString),
    ("ovs_link", .tMaybeString) ]

/-- NIC parameter type table `NICS_PARAMETER_TYPES`, lines 1246-1250.
The key strings `mode`, `link` and `vlan` are the values of the
`NIC_MODE`, `NIC_LINK` and `NIC_VLAN` constants of `ganeti._constants`. -/
def NICS_PARAMETER_TYPES : List (String × VType) :=
  [ ("mode", .tString),
    ("link", .tString),
    ("vlan", .tMaybeString) ]

/-- Disk template parameter type table `DISK_DT_TYPES`, lines 1188-1206. -/
def DISK_DT_TYPES : List (String × VType) :=
  [ ("resync-rate", .tInt),
    ("data-stripes", .tInt),
    ("meta-stripes", .tInt),
    ("disk-barriers", .tString),
    ("meta-barriers", .tBool),
    ("metavg", .tString),
    ("disk-custom", .tString),
    ("net-custom", .tString),
    ("protocol", .tString),
    ("dynamic-resync", .tBool),
    ("c-plan-ahead", .tInt),
    ("c-fill-target", .tInt),
    ("c-delay-target", .tInt),
    ("c-max-rate", .tInt),
    ("c-min-rate", .tInt),
    ("stripes", .tInt),
    ("pool", .tString) ]

/-- Modelled from the spec: `XEN_BOOTLOADER`, a string constant of
`ganeti._constants` (absent from `src/`); a representative build value is
used, and only the fact that it is a string matters for the claims. -/
def XEN_BOOTLOADER : Value := .vStr ""

/-- Modelled from the spec: `XEN_KERNEL`, a string constant of
`ganeti._constants` (absent from `src/`). -/
def XEN_KERNEL : Value := .vStr "/boot/vmlinuz-3-xenU"

/-- Modelled from the spec: `XEN_CMD_XM`, the xm toolstack identifier of
`ganeti._constants` (absent from `src/`). -/
def XEN_CMD_XM : Value := .vStr "xm"

/-- Modelled from the spec: `KVM_PATH`, a string from `ganeti._autoconf`
(absent from `src/`). -/
def KVM_PATH : Value := .vStr "/usr/bin/kvm"

/-- Modelled from the spec: `KVM_KERNEL`, a string from
`ganeti._autoconf` (absent from `src/`). -/
def KVM_KERNEL : Value := .vStr "/boot/vmlinuz-3-kvmU"

/-- Modelled from the spec: `pathutils.VNC_PASSWORD_FILE`, a path string
from `ganeti.pathutils` (absent from `src/`). -/
def VNC_PASSWORD_FILE : Value := .vStr "/etc/ganeti/vnc-cluster-password"

/-- Modelled from the spec: `HT_MIGRATION_LIVE`, a string constant of
`ganeti._constants` (absent from `src/`). -/
def HT_MIGRATION_LIVE : Value := .vStr "live"

/-- Modelled from the spec: `HT_MIGRATION_NONLIVE`, a string constant of
`ganeti._constants` (absent from `src/`). -/
def HT_MIGRATION_NONLIVE : Value := .vStr "non-live"

/-- Modelled from the spec: `_autoconf.DRBD_BARRIERS`, a string build
option (absent from `src/`). -/
def DRBD_BARRIERS : Value := .vStr "n"

/-- Modelled from the spec: `_autoconf.DRBD_NO_META_FLUSH`, a boolean
build option (absent from `src/`). -/
def DRBD_NO_META_FLUSH : Value := .vBool false

/-- Modelled from the spec: `_autoconf.LVM_STRIPECOUNT`, an integer build
option (absent from `src/`). -/
def LVM_STRIPECOUNT : Value := .vInt 1

/-- DRBD sync speed `CLASSIC_DRBD_SYNC_SPEED`, line 651: 60 MiB in KiB. -/
def CLASSIC_DRBD_SYNC_SPEED : Int := 60 * 1024

/-- Xen PVM hypervisor defaults, `HVC_DEFAULTS[HT_XEN_PVM]`,
lines 1821-1838. -/
def HVC_DEFAULTS_XEN_PVM : List (String × Value) :=
  [ ("use_bootloader", .vBool false),
    ("bootloader_path", XEN_BOOTLOADER),
    ("bootloader_args", .vStr ""),
    ("kernel_path", XEN_KERNEL),
    ("initrd_path", .vStr ""),
    ("root_path", .vStr "/dev/xvda1"),
    ("kernel_args", .vStr "ro"),
    ("migration_port", .vInt 8002),
    ("migration_mode", HT_MIGRATION_LIVE),
    ("blockdev_prefix", .vStr "sd"),
    ("reboot_behavior", .vStr "reboot"),
    ("cpu_mask", .vStr "all"),
    ("cpu_cap", .vInt 0),
    ("cpu_weight", .vInt 256),
    ("vif_script", .vStr ""),
    ("xen_cmd", XEN_CMD_XM) ]

/-- Xen HVM hypervisor defaults, `HVC_DEFAULTS[HT_XEN_HVM]`,
lines 1839-1863. -/
def HVC_DEFAULTS_XEN_HVM : List (String × Value) :=
  [ ("boot_order", .vStr "cd"),
    ("cdrom_image_path", .vStr ""),
    ("nic_type", .vStr "rtl8139"),
    ("disk_type", .vStr "paravirtual"),
    ("vnc_bind_address", .vStr "0.0.0.0"),
    ("vnc_password_file", VNC_PASSWORD_FILE),
    ("acpi", .vBool true),
    ("pae", .vBool true),
    ("kernel_path", .vStr "/usr/lib/xen/boot/hvmloader"),
    ("device_model", .vStr "/usr/lib/xen/bin/qemu-dm"),
    ("migration_port", .vInt 8002),
    ("migration_mode", HT_MIGRATION_NONLIVE),
    ("use_localtime", .vBool false),
    ("blockdev_prefix", .vStr "hd"),
    ("pci_pass", .vStr ""),
    ("reboot_behavior", .vStr "reboot"),
    ("cpu_mask", .vStr "all"),
    ("cpu_cap", .vInt 0),
    ("cpu_weight", .vInt 256),
    ("vif_type", .vStr "ioemu"),
    ("vif_script", .vStr ""),
    ("viridian", .vBool false),
    ("xen_cmd", XEN_CMD_XM) ]

/-- KVM hypervisor defaults, `HVC_DEFAULTS[HT_KVM]`, lines 1864-1922. -/
def HVC_DEFAULTS_KVM : List (String × Value) :=
  [ ("kvm_path", KVM_PATH),
    ("kernel_path", KVM_KERNEL),
    ("initrd_path", .vStr ""),
    ("kernel_args", .vStr "ro"),
    ("root_path", .vStr "/dev/vda1"),
    ("acpi", .vBool true),
    ("serial_console", .vBool true),
    ("serial_speed", .vInt 38400),
    ("vnc_bind_address", .vStr ""),
    ("vnc_tls", .vBool false),
    ("vnc_x509_path", .vStr ""),
    ("vnc_x509_verify", .vBool false),
    ("vnc_password_file", .vStr ""),
    ("spice_bind", .vStr ""),
    ("spice_ip_version", .vInt 0),
    ("spice_password_file", .vStr ""),
    ("spice_image_compression", .vStr ""),
    ("spice_jpeg_wan_compression", .vStr ""),
    ("spice_zlib_glz_wan_compression", .vStr ""),
    ("spice_streaming_video", .vStr ""),
    ("spice_playback_compression", .vBool true),
    ("spice_use_tls", .vBool false),
    ("spice_tls_ciphers", .vStr "HIGH:-DES:-3DES:-EXPORT:-ADH"),
    ("spice_use_vdagent", .vBool true),
    ("floppy_image_path", .vStr ""),
    ("cdrom_image_path", .vStr ""),
    ("cdrom2_image_path", .vStr ""),
    ("boot_order", .vStr "disk"),
    ("nic_type", .vStr "paravirtual"),
    ("disk_type", .vStr "paravirtual"),
    ("cdrom_disk_type", .vStr ""),
    ("usb_mouse", .vStr ""),
    ("keymap", .vStr ""),
    ("migration_port", .vInt 8102),
    ("migration_bandwidth", .vInt 32),
    ("migration_downtime", .vInt 30),
    ("migration_mode", HT_MIGRATION_LIVE),
    ("use_localtime", .vBool false),
    ("disk_cache", .vStr "default"),
    ("security_model", .vStr "none"),
    ("security_domain", .vStr ""),
    ("kvm_flag", .vStr ""),
    ("vhost_net", .vBool false),
    ("use_chroot", .vBool false),
    ("mem_path", .vStr ""),
    ("reboot_behavior", .vStr "reboot"),
    ("cpu_mask", .vStr "all"),
    ("cpu_type", .vStr ""),
    ("cpu_cores", .vInt 0),
    ("cpu_threads", .vInt 0),
    ("cpu_sockets", .vInt 0),
    ("soundhw", .vStr ""),
    ("usb_devices", .vStr ""),
    ("vga", .vStr ""),
    ("kvm_extra", .vStr ""),
    ("machine_version", .vStr ""),
    ("vnet_hdr", .vBool true) ]

/-- Fake hypervisor defaults, `HVC_DEFAULTS[HT_FAKE]`, lines 1923-1925:
only the migration mode is given a default. -/
def HVC_DEFAULTS_FAKE : List (String × Value) :=
  [ ("migration_mode", HT_MIGRATION_LIVE) ]

/-- Chroot hypervisor defaults, `HVC_DEFAULTS[HT_CHROOT]`,
lines 1926-1928. -/
def HVC_DEFAULTS_CHROOT : List (String × Value) :=
  [ ("init_script", .vStr "/ganeti-chroot") ]

/-- LXC hypervisor defaults, `HVC_DEFAULTS[HT_LXC]`, lines 1929-1931. -/
def HVC_DEFAULTS_LXC : List (String × Value) :=
  [ ("cpu_mask", .vStr "") ]

/-- Per-hypervisor defaults table `HVC_DEFAULTS`, lines 1820-1932.  The
hypervisor name strings are the values of the `HT_*` identifiers of
`ganeti._constants`. -/
def HVC_DEFAULTS : List (String × List (String × Value)) :=
  [ ("xen-pvm", HVC_DEFAULTS_XEN_PVM),
    ("xen-hvm", HVC_DEFAULTS_XEN_HVM),
    ("kvm", HVC_DEFAULTS_KVM),
    ("fake", HVC_DEFAULTS_FAKE),
    ("chroot", HVC_DEFAULTS_CHROOT),
    ("lxc", HVC_DEFAULTS_LXC) ]

/-- Cluster-global hypervisor parameter keys `HVC_GLOBALS`,
lines 1934-1939. -/
def HVC_GLOBALS : List String :=
  ["migration_port", "migration_bandwidth", "migration_mode", "xen_cmd"]

/-- Backend defaults table `BEC_DEFAULTS`, lines 1941-1948. -/
def BEC_DEFAULTS : List (String × Value) :=
  [ ("minmem", .vInt 128),
    ("maxmem", .vInt 128),
    ("vcpus", .vInt 1),
    ("auto_balance", .vBool true),
    ("always_failover", .vBool false),
    ("spindle_use", .vInt 1) ]

/-- Node defaults table `NDC_DEFAULTS`, lines 1950-1957. -/
def NDC_DEFAULTS : List (String × Value) :=
  [ ("oob_program", .vStr ""),
    ("spindle_count", .vInt 1),
    ("exclusive_storage", .vBool false),
    ("ovs", .vBool false),
    ("ovs_name", .vStr "switch1"),
    ("ovs_link", .vStr "") ]

/-- Cluster-global node parameter keys `NDC_GLOBALS`, lines 1959-1961. -/
def NDC_GLOBALS : List String := ["exclusive_storage"]

/-- NIC defaults table `NICC_DEFAULTS`, lines 2035-2039: bridged mode on
the default bridge, with the `vlan` default being the absent sentinel
`VALUE_HS_NOTHING`. -/
def NICC_DEFAULTS : List (String × Value) :=
  [ ("mode", .vStr "bridged"),
    ("link", .vStr "xen-br0"),
    ("vlan", .vNothing) ]

/-- Per-disk-template defaults table `DISK_DT_DEFAULTS`, lines 2001-2030.
The drbd values resolve through `DISK_LD_DEFAULTS` (lines 1963-1995);
they are written here already resolved, as the source comments document
them. -/
def DISK_DT_DEFAULTS : List (DiskTemplate × List (String × Value)) :=
  [ (.dtPlain, [("stripes", LVM_STRIPECOUNT)]),
    (.dtDrbd8,
      [ ("resync-rate", .vInt CLASSIC_DRBD_SYNC_SPEED),
        ("data-stripes", LVM_STRIPECOUNT),
        ("meta-stripes", LVM_STRIPECOUNT),
        ("disk-barriers", DRBD_BARRIERS),
        ("meta-barriers", DRBD_NO_META_FLUSH),
        ("metavg", .vStr "xenvg"),
        ("disk-custom", .vStr ""),
        ("net-custom", .vStr ""),
        ("protocol", .vStr "C"),
        ("dynamic-resync", .vBool false),
        ("c-plan-ahead", .vInt 20),
        ("c-fill-target", .vInt 0),
        ("c-delay-target", .vInt 1),
        ("c-max-rate", .vInt CLASSIC_DRBD_SYNC_SPEED),
        ("c-min-rate", .vInt (4 * 1024)) ]),
    (.dtDiskless, []),
    (.dtFile, []),
    (.dtSharedFile, []),
    (.dtBlock, []),
    (.dtRbd, [("pool", .vStr "rbd")]),
    (.dtExt, []) ]

/-- Lookup of a declared value type in a parameter table. -/
def lookupT (tys : List (String × VType)) (k : String) : Option VType :=
  (tys.find? (fun p => p.1 == k)).map (fun p => p.2)

/-- Lookup of a value in a parameter map. -/
def lookupA (m : List (String × Value)) (k : String) : Option Value :=
  (m.find? (fun p => p.1 == k)).map (fun p => p.2)

/-- Check of a defaults table against a parameter-type table: every
provided key must be declared and every provided value must pass the
TypeValidator for the declared type of its key. -/
def defaultsOk (tys : List (String × VType)) (ds : List (String × Value)) : Bool :=
  ds.all (fun kv =>
    match lookupT tys kv.1 with
    | some ty => typeCheck kv.2 ty
    | none => false)

/-- One precedence scope of the resolver: its override map, and whether
it is the cluster-level scope (global keys may only be set there). -/
structure Scope where
  isCluster : Bool
  overrides : List (String × Value)
deriving DecidableEq, Repr

/-- Declaration of one entity kind for the resolver: its parameter-type
table, its compiled-in defaults table, and its global-only key set. -/
structure EntityDecl where
  types : List (String × VType)
  defaults : List (String × Value)
  globals : List String
deriving DecidableEq, Repr

/-- Structured errors of the resolver (spec 7). -/
inductive ResolveError where
  | unknownParameter (k : String)
  | invalidValueType (k : String)
  | globalParameterOverride (k : String)
deriving DecidableEq, Repr

/-- Overwrite of the running effective value for a key: the new binding
replaces any existing binding of the same key. -/
def setA (m : List (String × Value)) (k : String) (v : Value) :
    List (String × Value) :=
  (k, v) :: m.filter (fun p => p.1 != k)

/-- Modelled from the spec: application of one scope of overrides
(spec 4.2 steps 1-4).  Each key must be declared (else UnknownParameter),
its value must pass the TypeValidator (else InvalidValueType), and a
global-only key may not be set below cluster scope (else
GlobalParameterOverride); otherwise the running value is overwritten. -/
def applyOverrides (tys : List (String × VType)) (globals : List String)
    (isCluster : Bool) :
    List (String × Value) → List (String × Value) →
    Except ResolveError (List (String × Value))
  | acc, [] => .ok acc
  | acc, (k, v) :: rest =>
    match lookupT tys k with
    | none => .error (.unknownParameter k)
    | some ty =>
      if typeCheck v ty = false then .error (.invalidValueType k)
      else if globals.contains k && !isCluster then
        .error (.globalParameterOverride k)
      else applyOverrides tys globals isCluster (setA acc k v) rest

/-- Modelled from the spec: fold of the scopes in ascending precedence
order over the running effective map. -/
def resolveScopes (decl : EntityDecl) :
    List (String × Value) → List Scope →
    Except ResolveError (List (String × Value))
  | acc, [] => .ok acc
  | acc, sc :: rest =>
    match applyOverrides decl.types decl.globals sc.isCluster acc sc.overrides with
    | .error e => .error e
    | .ok acc2 => resolveScopes decl acc2 rest

/-- Modelled from the spec: resolveEffective (spec 4.2) starts from the
compiled-in defaults table of the entity kind and applies the scopes from
lowest to highest precedence. -/
def resolveEffective (decl : EntityDecl) (scopes : List Scope) :
    Except ResolveError (List (String × Value)) :=
  resolveScopes decl decl.defaults scopes

/-- The hypervisor entity-kind declaration for the fake hypervisor: the
declared keys are `HVS_PARAMETER_TYPES`, the starting defaults are the
`HT_FAKE` entry of `HVC_DEFAULTS`, and the global keys `HVC_GLOBALS`. -/
def hvFakeDecl : EntityDecl :=
  { types := HVS_PARAMETER_TYPES
    defaults := HVC_DEFAULTS_FAKE
    globals := HVC_GLOBALS }

/-- Version number composition, `src/lib/constants.py` lines 63-74:
`1000000 * major + 10000 * minor + 1 * revision`. -/
def BuildVersion (major minor revision : Int) : Int :=
  1000000 * major + 10000 * minor + 1 * revision

/-- Version number decomposition, lines 77-88: two Python `divmod` steps
by 1000000 and 10000.  Python `divmod` is floor division, which for the
positive divisors used here coincides with the euclidean `Int` division
behind the `/` and `%` notation. -/
def SplitVersion (version : Int) : Int × Int × Int :=
  (version / 1000000, version % 1000000 / 10000, version % 1000000 % 10000)

end Ganeti

namespace Ganeti

/-- Claim C5: every disk template that must use adoption also allows
adoption: `DTS_MUST_ADOPT` is a subset of `DTS_MAY_ADOPT`. -/
theorem must_adopt_subset_may_adopt :
    ∀ t : DiskTemplate, t ∈ DTS_MUST_ADOPT → t ∈ DTS_MAY_ADOPT := by
  decide

/-- Witness for C5: the one must-adopt template (block) allows adoption. -/
theorem must_adopt_subset_may_adopt_concrete :
    DiskTemplate.dtBlock ∈ DTS_MAY_ADOPT :=
  must_adopt_subset_may_adopt DiskTemplate.dtBlock (by decide)

/-- Claim C6: the internally-mirrored and externally-mirrored disk
template sets are disjoint: no template is a member of both
`DTS_INT_MIRROR` and `DTS_EXT_MIRROR`. -/
theorem mirror_sets_disjoint :
    ∀ t : DiskTemplate,
      (DTS_INT_MIRROR.contains t && DTS_EXT_MIRROR.contains t) = false := by
  decide

/-- Claim C7: the storage-type lookup is total and functional: each of the
eight disk templates appears exactly once as a key of
`MAP_DISK_TEMPLATE_STORAGE_TYPE`, so every template is mapped to exactly
one backing storage type and the lookup has no error path. -/
theorem storage_type_lookup_total :
    ∀ t : DiskTemplate,
      (MAP_DISK_TEMPLATE_STORAGE_TYPE.filter (fun p => p.1 = t)).length = 1 ∧
      (MAP_DISK_TEMPLATE_STORAGE_TYPE.lookup t).isSome = true := by
  decide

/-- Claim C3: every compiled-in defaults table only defines keys declared
in its corresponding parameter-type table, and every provided default
passes the TypeValidator for the declared type of its key, including the
MaybeString key `vlan` of `NICC_DEFAULTS` whose default is the absent
sentinel `VALUE_HS_NOTHING`. -/
theorem defaults_tables_well_typed :
    HVC_DEFAULTS.all (fun p => defaultsOk HVS_PARAMETER_TYPES p.2) = true ∧
    defaultsOk BES_PARAMETER_TYPES BEC_DEFAULTS = true ∧
    defaultsOk NDS_PARAMETER_TYPES NDC_DEFAULTS = true ∧
    defaultsOk NICS_PARAMETER_TYPES NICC_DEFAULTS = true ∧
    DISK_DT_DEFAULTS.all (fun p => defaultsOk DISK_DT_TYPES p.2) = true ∧
    lookupT NICS_PARAMETER_TYPES "vlan" = some VType.tMaybeString ∧
    lookupA NICC_DEFAULTS "vlan" = some Value.vNothing := by
  decide

/-- Key membership after an overwrite: the keys of `setA m k v` are `k`
together with the keys of `m`. -/
theorem setA_keys (m : List (String × Value)) (k0 : String) (v : Value)
    (x : String) :
    x ∈ (setA m k0 v).map Prod.fst ↔ x = k0 ∨ x ∈ m.map Prod.fst := by
  simp only [setA, List.map_cons, List.mem_cons, List.mem_map,
    List.mem_filter, bne_iff_ne, ne_eq]
  constructor
  · rintro (h | ⟨p, ⟨hp, hne⟩, rfl⟩)
    · exact Or.inl h
    · exact Or.inr ⟨p, hp, rfl⟩
  · rintro (rfl | ⟨p, hp, rfl⟩)
    · exact Or.inl rfl
    · by_cases hpk : p.1 = k0
      · exact Or.inl hpk
      · exact Or.inr ⟨p, ⟨hp, hpk⟩, rfl⟩

/-- Key domain of a successful scope application: the keys of the result
are the keys of the accumulator together with the override keys. -/
theorem applyOverrides_keys (tys : List (String × VType))
    (globals : List String) (isC : Bool) :
    ∀ (ovs acc m : List (String × Value)),
      applyOverrides tys globals isC acc ovs = Except.ok m →
      ∀ k, (k ∈ m.map Prod.fst ↔ k ∈ acc.map Prod.fst ∨ k ∈ ovs.map Prod.fst) := by
  intro ovs
  induction ovs with
  | nil =>
    intro acc m h k
    simp only [applyOverrides, Except.ok.injEq] at h
    subst h
    simp
  | cons kv rest ih =>
    intro acc m h k
    obtain ⟨k0, v0⟩ := kv
    simp only [applyOverrides] at h
    cases hl : lookupT tys k0 with
    | none => rw [hl] at h; cases h
    | some ty =>
      rw [hl] at h
      simp only [] at h
      split at h
      · cases h
      · split at h
        · cases h
        · have hmem := ih (setA acc k0 v0) m h k
          rw [setA_keys] at hmem
          simp only [List.map_cons, List.mem_cons]
          rw [hmem]
          tauto

/-- Key domain of a successful scope fold: the keys of the result are the
keys of the accumulator together with all override keys of the scopes. -/
theorem resolveScopes_keys (decl : EntityDecl) :
    ∀ (scopes : List Scope) (acc m : List (String × Value)),
      resolveScopes decl acc scopes = Except.ok m →
      ∀ k, (k ∈ m.map Prod.fst ↔
        k ∈ acc.map Prod.fst ∨ ∃ sc ∈ scopes, k ∈ sc.overrides.map Prod.fst) := by
  intro scopes
  induction scopes with
  | nil =>
    intro acc m h k
    simp only [resolveScopes, Except.ok.injEq] at h
    subst h
    simp
  | cons sc rest ih =>
    intro acc m h k
    simp only [resolveScopes] at h
    cases ha : applyOverrides decl.types decl.globals sc.isCluster acc sc.overrides with
    | error e => rw [ha] at h; cases h
    | ok acc2 =>
      rw [ha] at h
      simp only [] at h
      have h2 := ih acc2 m h k
      have h1 := applyOverrides_keys decl.types decl.globals sc.isCluster
        sc.overrides acc acc2 ha k
      rw [h1] at h2
      rw [h2]
      constructor
      · rintro ((hacc | hov) | ⟨sc2, hsc2, hov2⟩)
        · exact Or.inl hacc
        · exact Or.inr ⟨sc, List.mem_cons_self sc rest, hov⟩
        · exact Or.inr ⟨sc2, List.mem_cons_of_mem sc hsc2, hov2⟩
      · rintro (hacc | ⟨sc2, hsc2, hov2⟩)
        · exact Or.inl (Or.inl hacc)
        · rcases List.mem_cons.mp hsc2 with rfl | hsc2
          · exact Or.inl (Or.inr hov2)
          · exact Or.inr ⟨sc2, hsc2, hov2⟩

/-- Claim C2 counterexample: for the hypervisor entity kind of the fake
hypervisor, resolveEffective with no overrides succeeds, yet its result
covers only the single defaulted key: the declared key `boot_order` of
`HVS_PARAMETER_TYPES` is absent from the effective map, so the domain of
the result is a proper subset of the declared key set. -/
theorem resolve_fake_domain_incomplete :
    resolveEffective hvFakeDecl [] = Except.ok HVC_DEFAULTS_FAKE ∧
    HVS_PARAMETER_TYPES.all
      (fun p => (HVC_DEFAULTS_FAKE.map Prod.fst).contains p.1) = false ∧
    (HVC_DEFAULTS_FAKE.map Prod.fst).contains "boot_order" = false ∧
    lookupT HVS_PARAMETER_TYPES "boot_order" = some VType.tString :=
  ⟨rfl, by decide, by decide, by decide⟩

/-- Claim C2 (amended): on success, the domain of the effective map
returned by resolveEffective is the set of keys of the compiled-in
defaults table together with all override keys of the supplied scopes; it
equals the full declared key set only when those jointly cover every
declared key, which the hypervisor defaults (e.g. the HT_FAKE entry of
HVC_DEFAULTS, 1 of 71 declared keys) do not. -/
theorem resolveEffective_domain (decl : EntityDecl) (scopes : List Scope)
    (m : List (String × Value))
    (h : resolveEffective decl scopes = Except.ok m) (k : String) :
    k ∈ m.map Prod.fst ↔
      k ∈ decl.defaults.map Prod.fst ∨
      ∃ sc ∈ scopes, k ∈ sc.overrides.map Prod.fst :=
  resolveScopes_keys decl scopes decl.defaults m h k

/-- Witness for the amended C2: overriding the migration mode of the fake
hypervisor at cluster scope yields an effective map whose key domain is
described exactly by the theorem. -/
theorem resolveEffective_domain_concrete :
    "migration_mode" ∈
        ([("migration_mode", Value.vStr "non-live")] : List (String × Value)).map
          Prod.fst ↔
      "migration_mode" ∈ hvFakeDecl.defaults.map Prod.fst ∨
      ∃ sc ∈ [Scope.mk true [("migration_mode", Value.vStr "non-live")]],
        "migration_mode" ∈ sc.overrides.map Prod.fst :=
  resolveEffective_domain hvFakeDecl
    [Scope.mk true [("migration_mode", Value.vStr "non-live")]]
    [("migration_mode", Value.vStr "non-live")] rfl "migration_mode"

/-- Claim C1: the Scenario A spec (memory 2048, cpu 2, disks 1, disk size
10240, nics 1, spindle 1) matches the compiled-in default bracket
`ISPECS_MINMAX_DEFAULTS` in every dimension, so `evaluate` against the
default policy returns Accepted (with the first bracket, index 0) for
every disk template. -/
theorem scenarioA_accepted :
    bracketMatches specScenarioA ISPECS_MINMAX_DEFAULTS = true ∧
    ∀ t : DiskTemplate,
      evaluate specScenarioA t IPOLICY_DEFAULTS = Admission.accepted 0 := by
  decide

/-- Claim C4: the default instance policy `IPOLICY_DEFAULTS` satisfies the
construction invariants: in its single bracket `ISPECS_MINMAX_DEFAULTS`
every dimension has min at most max, the standard spec lies within the
bracket, and hence the standard spec matches at least one bracket of the
policy. -/
theorem ipolicy_defaults_invariants :
    specLe ISPECS_MINMAX_DEFAULTS.min ISPECS_MINMAX_DEFAULTS.max = true ∧
    specLe ISPECS_MINMAX_DEFAULTS.min IPOLICY_DEFAULTS.std = true ∧
    specLe IPOLICY_DEFAULTS.std ISPECS_MINMAX_DEFAULTS.max = true ∧
    IPOLICY_DEFAULTS.minmax.any (bracketMatches IPOLICY_DEFAULTS.std) = true := by
  decide

/-- Claim C8: for a node group with total node cpu capacity 8 and hosted
instance vcpu sum 40 the computed vcpu ratio is exactly 5, which exceeds
the default policy limit 4, so the evaluation carries a RatioExceeded
diagnostic alongside (not instead of) the bracket-based decision. -/
theorem scenarioC_ratio_exceeded :
    vcpuRatioOf groupScenarioC = 5 ∧
    IPOLICY_DEFAULTS.vcpuRatioLimit = 4 ∧
    ∀ (s : InstanceSpec) (t : DiskTemplate),
      evaluateWithRatios s t IPOLICY_DEFAULTS groupScenarioC =
        (evaluate s t IPOLICY_DEFAULTS, [RatioDiag.ratioExceeded "vcpu" 5 4]) := by
  refine ⟨?_, rfl, fun s t => ?_⟩
  · norm_num [vcpuRatioOf, groupScenarioC]
  · show (evaluate s t IPOLICY_DEFAULTS, ratioChecks groupScenarioC IPOLICY_DEFAULTS) = _
    rw [show ratioChecks groupScenarioC IPOLICY_DEFAULTS =
        [RatioDiag.ratioExceeded "vcpu" 5 4] from by
      norm_num [ratioChecks, vcpuRatioOf, spindleRatioOf, groupScenarioC,
        IPOLICY_DEFAULTS]]

/-- Claim C9: bracket matching is monotone in the bracket bounds: if a
spec matches a bracket, it still matches any bracket whose min dimensions
are no higher and whose max dimensions are no lower; widening a bracket
never turns a matching spec into non-matching. -/
theorem bracketMatches_monotone (s : InstanceSpec) (b bWide : MinMaxISpecs)
    (h : bracketMatches s b = true)
    (hmin : specLe bWide.min b.min = true)
    (hmax : specLe b.max bWide.max = true) :
    bracketMatches s bWide = true := by
  simp only [bracketMatches, specLe, Bool.and_eq_true, decide_eq_true_eq] at *
  omega

/-- Witness for C9: the Scenario A spec matches the default bracket and
still matches it after widening the cpu maximum to 1000 and lowering the
memory minimum to 0. -/
theorem bracketMatches_monotone_concrete :
    bracketMatches specScenarioA
      { min := { memSize := 0
                 cpuCount := 1
                 diskCount := 1
                 diskSize := 1024
                 nicCount := 1
                 spindleUse := 1 }
        max := { memSize := 32768
                 cpuCount := 1000
                 diskCount := 16
                 diskSize := 1024 * 1024
                 nicCount := 8
                 spindleUse := 12 } } = true :=
  bracketMatches_monotone specScenarioA ISPECS_MINMAX_DEFAULTS _
    (by decide) (by decide) (by decide)

/-- Claim C10: `SplitVersion` inverts `BuildVersion` exactly when minor
lies in [0, 99] and revision in [0, 9999]; outside those bounds the
decomposition by divmod 1000000 and 10000 never recovers the inputs. -/
theorem build_split_version_roundtrip :
    ∀ major minor revision : Int, 0 ≤ major →
      ((0 ≤ minor ∧ minor ≤ 99 ∧ 0 ≤ revision ∧ revision ≤ 9999) →
        SplitVersion (BuildVersion major minor revision) = (major, minor, revision)) ∧
      ((minor < 0 ∨ 99 < minor ∨ revision < 0 ∨ 9999 < revision) →
        SplitVersion (BuildVersion major minor revision) ≠ (major, minor, revision)) := by
  intro major minor revision hmaj
  constructor
  · intro hb
    simp only [SplitVersion, BuildVersion, Prod.mk.injEq]
    omega
  · intro hout heq
    simp only [SplitVersion, BuildVersion, Prod.mk.injEq] at heq
    omega

/-- Witness for C10: a concrete in-bounds round trip and a concrete
out-of-bounds failure (minor 100 carries into the major component). -/
theorem build_split_version_roundtrip_concrete :
    SplitVersion (BuildVersion 2 11 3) = (2, 11, 3) ∧
    SplitVersion (BuildVersion 2 100 0) ≠ (2, 100, 0) :=
  ⟨(build_split_version_roundtrip 2 11 3 (by decide)).1
      ⟨by decide, by decide, by decide, by decide⟩,
   (build_split_version_roundtrip 2 100 0 (by decide)).2
      (Or.inr (Or.inl (by decide)))⟩

end Ganeti
